import Mathlib

/-!
# Lexer of the C-subset compiler: embedding and checked properties

Shallow embedding of `internal/lexer` (`type.go`, `token.go`, `lexer.go`).

* `TokenType` is Go's `type TokenType int`; the constants follow the `iota`
  numbering of `type.go`.
* `Token` is the struct of `token.go`. The field `Type` is spelled `Type_`
  because `Type` is reserved in Lean. Go's `string` is modelled by `String`,
  Go's `int` by `Int`.
* `Lexer` is the struct of `lexer.go`; its only field is the byte buffer.
  `NextToken` has a pointer receiver, so it is modelled by explicit state
  passing: it returns the token together with the lexer after the call.
-/

namespace lexer

/-! ## type.go -/

/-- Go: `type TokenType int`. -/
abbrev TokenType := Int

-- Special
abbrev ILLEGAL : TokenType := 0
abbrev EOF : TokenType := 1
-- Literals
abbrev INT_LIT : TokenType := 2
abbrev IDENT : TokenType := 3
-- Keywords
abbrev INT : TokenType := 4
abbrev RETURN : TokenType := 5
abbrev IF : TokenType := 6
abbrev ELSE : TokenType := 7
abbrev WHILE : TokenType := 8
-- Operators
abbrev ASSIGN : TokenType := 9
abbrev PLUS : TokenType := 10
abbrev MINUS : TokenType := 11
abbrev ASTERISK : TokenType := 12
abbrev SLASH : TokenType := 13
abbrev EQ : TokenType := 14
abbrev NE : TokenType := 15
abbrev LT : TokenType := 16
abbrev LE : TokenType := 17
abbrev GT : TokenType := 18
abbrev GE : TokenType := 19
-- Delimiters
abbrev SEMICOLON : TokenType := 20
abbrev COMMA : TokenType := 21
abbrev LPAREN : TokenType := 22
abbrev RPAREN : TokenType := 23
abbrev LBRACE : TokenType := 24
abbrev RBRACE : TokenType := 25

/-! ## token.go -/

/-- Go: `type Token struct { Type TokenType; Literal string; Line int; Column int }`. -/
structure Token where
  Type_ : TokenType
  Literal : String
  Line : Int
  Column : Int
deriving DecidableEq

/-! ## lexer.go -/

/-- Go: `type Lexer struct { Input []byte }`. -/
structure Lexer where
  Input : List UInt8
deriving DecidableEq

/-- Go: `func NewLexer(input []byte) *Lexer { return &Lexer{Input: input} }`. -/
def NewLexer (input : List UInt8) : Lexer :=
  { Input := input }

/-- Go: `func (l *Lexer) NextToken() Token`, whose body is
`return Token{Type: EOF, Literal: "", Line: 0, Column: 0}`.
The second component is the receiver after the call; the body assigns to no
field of `l`. -/
def Lexer.NextToken (l : Lexer) : Token × Lexer :=
  ({ Type_ := EOF, Literal := "", Line := 0, Column := 0 }, l)

/-! ## Driving a lexer by repeated calls -/

/-- The lexer after `n` calls of `NextToken`. -/
def Lexer.after : Lexer → Nat → Lexer
  | l, 0 => l
  | l, n + 1 => Lexer.after (l.NextToken).2 n

/-- The token returned by call number `n` (the first call is number 0). -/
def Lexer.nthToken (l : Lexer) (n : Nat) : Token :=
  ((l.after n).NextToken).1

/-- The tokens returned by the first `n` calls, in order. -/
def Lexer.tokens : Lexer → Nat → List Token
  | _, 0 => []
  | l, n + 1 => (l.NextToken).1 :: Lexer.tokens (l.NextToken).2 n

/-- Go's conversion `[]byte(s)`: the UTF-8 bytes of `s`. -/
def bytes (s : String) : List UInt8 :=
  s.toUTF8.data.toList

/-- The constants of the `const ( ... )` block of `type.go`, in declaration
order. -/
def tokenTypes : List TokenType :=
  [ILLEGAL, EOF,
   INT_LIT, IDENT,
   INT, RETURN, IF, ELSE, WHILE,
   ASSIGN, PLUS, MINUS, ASTERISK, SLASH, EQ, NE, LT, LE, GT, GE,
   SEMICOLON, COMMA, LPAREN, RPAREN, LBRACE, RBRACE]

/-- Go's zero value `Token{}`: every field holds the zero value of its type. -/
def zeroToken : Token :=
  { Type_ := 0, Literal := "", Line := 0, Column := 0 }

/-! ## Shared lemmas -/

theorem after_eq (l : Lexer) (n : Nat) : l.after n = l := by
  induction n with
  | zero => rfl
  | succ k ih => simpa [Lexer.after, Lexer.NextToken] using ih

theorem nthToken_eq (l : Lexer) (n : Nat) :
    l.nthToken n = { Type_ := EOF, Literal := "", Line := 0, Column := 0 } := by
  simp [Lexer.nthToken, Lexer.NextToken]

theorem tokens_eq (l : Lexer) (n : Nat) :
    l.tokens n = List.replicate n { Type_ := EOF, Literal := "", Line := 0, Column := 0 } := by
  induction n generalizing l with
  | zero => rfl
  | succ k ih => simp [Lexer.tokens, Lexer.NextToken, List.replicate_succ, ih]

/-! ## Scenario `"int x = 42;"` -/

/-- C1, as stated, fails: for `"int x = 42;"` the first five calls do not return
INT "int", IDENT "x", ASSIGN "=", INT_LIT "42", SEMICOLON ";" followed by an EOF
token at the sixth call. -/
theorem int_x_assign_42_not_scanned :
    ¬ (((NewLexer (bytes "int x = 42;")).tokens 5).map (fun t => (t.Type_, t.Literal))
          = [(INT, "int"), (IDENT, "x"), (ASSIGN, "="), (INT_LIT, "42"), (SEMICOLON, ";")]
        ∧ ((NewLexer (bytes "int x = 42;")).nthToken 5).Type_ = EOF) := by
  decide

/-- C1, amended: driving `NewLexer([]byte("int x = 42;"))` by repeated `NextToken`
calls yields, at every call from the first on, a token of Type EOF with the empty
Literal; the first `n` tokens are `n` such EOF tokens. -/
theorem int_x_assign_42_all_eof (n : Nat) :
    ((NewLexer (bytes "int x = 42;")).tokens n).map (fun t => (t.Type_, t.Literal))
      = List.replicate n (EOF, "") := by
  simp [tokens_eq]

/-! ## Operators with a one-byte lookahead -/

/-- C2, as stated, fails: `"x <= 10"` does not tokenize to
IDENT "x", LE "<=", INT_LIT "10", EOF. -/
theorem x_le_10_not_scanned :
    ¬ (((NewLexer (bytes "x <= 10")).tokens 3).map (fun t => (t.Type_, t.Literal))
          = [(IDENT, "x"), (LE, "<="), (INT_LIT, "10")]
        ∧ ((NewLexer (bytes "x <= 10")).nthToken 3).Type_ = EOF) := by
  decide

/-- C2, amended: for every input and every call, whatever byte the input holds
(also `=`, `!`, `<` or `>`, followed by `=` or not), `NextToken` returns Type EOF
with the empty Literal and none of EQ, NE, LE, GE, ASSIGN, LT, GT; in particular
the first four tokens of `"x <= 10"` and of `"x < = 10"` are all EOF. -/
theorem comparison_operators_never_returned (input : List UInt8) (n : Nat) :
    ((NewLexer input).nthToken n).Type_ = EOF
      ∧ ((NewLexer input).nthToken n).Literal = ""
      ∧ ((NewLexer input).nthToken n).Type_ ∉ [EQ, NE, LE, GE, ASSIGN, LT, GT]
      ∧ ((NewLexer (bytes "x <= 10")).tokens 4).map (fun t => t.Type_) = [EOF, EOF, EOF, EOF]
      ∧ ((NewLexer (bytes "x < = 10")).tokens 4).map (fun t => t.Type_)
          = [EOF, EOF, EOF, EOF] := by
  rw [nthToken_eq]
  decide

/-! ## Unrecognised bytes -/

/-- C3, as stated, fails: `"@"` does not tokenize to ILLEGAL "@" at Line 1,
Column 1 followed by EOF. -/
theorem at_sign_not_illegal :
    ¬ ((NewLexer (bytes "@")).nthToken 0
          = { Type_ := ILLEGAL, Literal := "@", Line := 1, Column := 1 }
        ∧ ((NewLexer (bytes "@")).nthToken 1).Type_ = EOF) := by
  decide

/-- C3, amended: for every input and every call, whatever its bytes, `NextToken`
consumes nothing (the lexer after the call is the lexer before it) and returns
Type EOF with the empty Literal, never ILLEGAL; in particular the first call on
`"@"` returns EOF with the empty Literal. -/
theorem illegal_never_returned (input : List UInt8) (n : Nat) :
    (((NewLexer input).after n).NextToken).2 = (NewLexer input).after n
      ∧ ((NewLexer input).nthToken n).Type_ = EOF
      ∧ ((NewLexer input).nthToken n).Literal = ""
      ∧ ((NewLexer input).nthToken n).Type_ ≠ ILLEGAL
      ∧ ((NewLexer (bytes "@")).nthToken 0).Type_ = EOF
      ∧ ((NewLexer (bytes "@")).nthToken 0).Literal = "" := by
  rw [nthToken_eq]
  refine ⟨rfl, ?_⟩
  decide

/-! ## Line and column -/

/-- C4, as stated, fails: for `"\n  y"` the first token is not IDENT "y" with
Line 2 and Column 3. -/
theorem newline_y_not_at_2_3 :
    ¬ (((NewLexer (bytes "\n  y")).nthToken 0).Type_ = IDENT
        ∧ ((NewLexer (bytes "\n  y")).nthToken 0).Literal = "y"
        ∧ ((NewLexer (bytes "\n  y")).nthToken 0).Line = 2
        ∧ ((NewLexer (bytes "\n  y")).nthToken 0).Column = 3) := by
  decide

/-- C4, amended: the Line and Column of a returned token do not depend on the
input or on the number of earlier calls (no newline or other byte of the input
is counted): any two calls on any two inputs return the same Line and the same
Column. In particular, for `"\n  y"` the first token has Type EOF and the empty
Literal. -/
theorem position_independent_of_input (input₁ input₂ : List UInt8) (n m : Nat) :
    ((NewLexer input₁).nthToken n).Line = ((NewLexer input₂).nthToken m).Line
      ∧ ((NewLexer input₁).nthToken n).Column = ((NewLexer input₂).nthToken m).Column
      ∧ ((NewLexer (bytes "\n  y")).nthToken 0).Type_ = EOF
      ∧ ((NewLexer (bytes "\n  y")).nthToken 0).Literal = "" := by
  rw [nthToken_eq, nthToken_eq]
  decide

/-- C5, the code at the failing input: on the empty buffer the first `NextToken`
call returns Type EOF and Literal "" as claimed, but Line 0 and Column 0, not the
1-based position Line 1, Column 1. -/
theorem empty_input_eof_at_0_0 :
    ((NewLexer []).NextToken).1 = { Type_ := EOF, Literal := "", Line := 0, Column := 0 }
      ∧ ((NewLexer []).NextToken).1 ≠ { Type_ := EOF, Literal := "", Line := 1, Column := 1 } := by
  decide

/-! ## Termination and the terminal state -/

/-- C6: for every byte input, repeated `NextToken` calls on `NewLexer(input)`
return an EOF token after finitely many calls, at most `len(input)+1` (here call
number `k`, counted from 0, so `k+1` calls), and no earlier call returns EOF.
`NextToken` is a total function of the lexer: no call fails. -/
theorem eof_within_length_succ_calls (input : List UInt8) :
    ∃ k, k + 1 ≤ input.length + 1
      ∧ ((NewLexer input).nthToken k).Type_ = EOF
      ∧ ∀ j, j < k → ((NewLexer input).nthToken j).Type_ ≠ EOF := by
  refine ⟨0, by omega, ?_, ?_⟩
  · rw [nthToken_eq]
  · intro j hj
    omega

/-- C7: once a `NextToken` call on a lexer has returned a token of Type EOF,
every later call on that lexer returns Type EOF with the empty Literal and the
Line and Column of that first EOF token. -/
theorem eof_is_idempotent (l : Lexer) (i j : Nat) (_hij : i < j)
    (h : (l.nthToken i).Type_ = EOF) :
    (l.nthToken j).Type_ = EOF
      ∧ (l.nthToken j).Literal = ""
      ∧ (l.nthToken j).Line = (l.nthToken i).Line
      ∧ (l.nthToken j).Column = (l.nthToken i).Column := by
  rw [nthToken_eq] at h
  rw [nthToken_eq, nthToken_eq]
  exact ⟨h, rfl, rfl, rfl⟩

/-- C7 at a concrete lexer: on `"@"` the first call returns EOF and so does the
second, with the same Literal, Line and Column. -/
theorem eof_is_idempotent_witness :
    0 < 1 ∧ ((NewLexer [64]).nthToken 0).Type_ = EOF
      ∧ ((NewLexer [64]).nthToken 1).Type_ = EOF
      ∧ ((NewLexer [64]).nthToken 1).Literal = ""
      ∧ ((NewLexer [64]).nthToken 1).Line = ((NewLexer [64]).nthToken 0).Line
      ∧ ((NewLexer [64]).nthToken 1).Column = ((NewLexer [64]).nthToken 0).Column :=
  ⟨by decide, by decide, eof_is_idempotent (NewLexer [64]) 0 1 (by decide) (by decide)⟩

/-! ## Identifiers, keywords and integer literals -/

/-- C8, as stated, fails: on `"int"` the first token is not INT with Literal
"int". -/
theorem int_keyword_not_scanned :
    ¬ (((NewLexer (bytes "int")).nthToken 0).Type_ = INT
        ∧ ((NewLexer (bytes "int")).nthToken 0).Literal = "int") := by
  decide

/-- C8, amended: for every input and every call, also when the input starts at
an ASCII letter or underscore, `NextToken` takes no run of bytes as Literal: it
returns Type EOF with the empty Literal and none of INT, RETURN, IF, ELSE, WHILE,
IDENT. In particular `"int"`, `"Int"`, `"IF"`, `"iff"` and `"int_"` each yield
EOF at the first call. -/
theorem keywords_and_ident_never_returned (input : List UInt8) (n : Nat) :
    ((NewLexer input).nthToken n).Type_ = EOF
      ∧ ((NewLexer input).nthToken n).Literal = ""
      ∧ ((NewLexer input).nthToken n).Type_ ∉ [INT, RETURN, IF, ELSE, WHILE, IDENT]
      ∧ (["int", "Int", "IF", "iff", "int_"].map
            (fun s => ((NewLexer (bytes s)).nthToken 0).Type_))
          = [EOF, EOF, EOF, EOF, EOF] := by
  rw [nthToken_eq]
  decide

/-- C9, as stated, fails: on `"007"` the first token is not INT_LIT with
Literal "007". -/
theorem leading_zero_literal_not_scanned :
    ¬ (((NewLexer (bytes "007")).nthToken 0).Type_ = INT_LIT
        ∧ ((NewLexer (bytes "007")).nthToken 0).Literal = "007") := by
  decide

/-- C9, amended: for every input and every call, also when the input starts at
an ASCII digit, `NextToken` takes no run of digits as Literal: it returns Type
EOF with the empty Literal and never INT_LIT. In particular `"007"` and a
40-digit number each yield EOF with the empty Literal at the first call. -/
theorem int_lit_never_returned (input : List UInt8) (n : Nat) :
    ((NewLexer input).nthToken n).Type_ = EOF
      ∧ ((NewLexer input).nthToken n).Literal = ""
      ∧ ((NewLexer input).nthToken n).Type_ ≠ INT_LIT
      ∧ (["007", "1234567890123456789012345678901234567890"].map
            (fun s => (((NewLexer (bytes s)).nthToken 0).Type_,
                       ((NewLexer (bytes s)).nthToken 0).Literal)))
          = [(EOF, ""), (EOF, "")] := by
  rw [nthToken_eq]
  decide

/-! ## Literals of sentinel and other tokens -/

/-- C12: every token `NextToken` returns whose Type is neither EOF nor ILLEGAL
has a non-empty Literal, and every token of Type EOF has the empty Literal.
Every returned token has Type EOF, so the second half applies to each of them
and the first half to none. -/
theorem literal_empty_exactly_at_eof (l : Lexer) (n : Nat) :
    ((l.nthToken n).Type_ ≠ EOF ∧ (l.nthToken n).Type_ ≠ ILLEGAL → (l.nthToken n).Literal ≠ "")
      ∧ ((l.nthToken n).Type_ = EOF → (l.nthToken n).Literal = "")
      ∧ (l.nthToken n).Type_ = EOF := by
  rw [nthToken_eq]
  decide

/-! ## One-byte operators and delimiters -/

/-- C13, as stated, fails: on `"+"` the first token is not PLUS with Literal
"+". -/
theorem plus_not_scanned :
    ¬ (((NewLexer (bytes "+")).nthToken 0).Type_ = PLUS
        ∧ ((NewLexer (bytes "+")).nthToken 0).Literal = "+") := by
  decide

/-- C13, amended: for every input and every call, also when the input starts at
one of the bytes `+ - * / ; , ( )` or a brace, `NextToken` consumes nothing
and returns Type EOF with the empty Literal, and none of PLUS, MINUS, ASTERISK,
SLASH, SEMICOLON, COMMA, LPAREN, RPAREN, LBRACE, RBRACE. In particular each of
these ten one-byte inputs yields EOF with the empty Literal at the first call. -/
theorem one_byte_operators_never_returned (input : List UInt8) (n : Nat) :
    (((NewLexer input).after n).NextToken).2 = (NewLexer input).after n
      ∧ ((NewLexer input).nthToken n).Type_ = EOF
      ∧ ((NewLexer input).nthToken n).Literal = ""
      ∧ ((NewLexer input).nthToken n).Type_ ∉
          [PLUS, MINUS, ASTERISK, SLASH, SEMICOLON, COMMA, LPAREN, RPAREN, LBRACE, RBRACE]
      ∧ (["+", "-", "*", "/", ";", ",", "(", ")", "\x7b", "\x7d"].map
            (fun s => (((NewLexer (bytes s)).nthToken 0).Type_,
                       ((NewLexer (bytes s)).nthToken 0).Literal)))
          = List.replicate 10 (EOF, "") := by
  rw [nthToken_eq]
  refine ⟨rfl, ?_⟩
  decide

/-- C14, as stated, fails: on `"!"` (a `!` that is the last byte) the first
token is not ILLEGAL with Literal "!". -/
theorem lone_bang_not_illegal :
    ¬ (((NewLexer (bytes "!")).nthToken 0).Type_ = ILLEGAL
        ∧ ((NewLexer (bytes "!")).nthToken 0).Literal = "!") := by
  decide

/-- C14, amended: for every input and every call, also when the input holds a
`!` that is not followed by `=`, `NextToken` returns Type EOF with the empty
Literal and no ILLEGAL token with Literal "!". In particular `"!"`, `"!x"` and
`"x!"` each yield EOF with the empty Literal at the first two calls. -/
theorem lone_bang_yields_eof (input : List UInt8) (n : Nat) :
    ((NewLexer input).nthToken n).Type_ = EOF
      ∧ ((NewLexer input).nthToken n).Literal = ""
      ∧ ¬ (((NewLexer input).nthToken n).Type_ = ILLEGAL
            ∧ ((NewLexer input).nthToken n).Literal = "!")
      ∧ (["!", "!x", "x!"].map
            (fun s => ((NewLexer (bytes s)).tokens 2).map (fun t => (t.Type_, t.Literal))))
          = List.replicate 3 [(EOF, ""), (EOF, "")] := by
  rw [nthToken_eq]
  decide

/-! ## Determinism and frame -/

/-- C15: two lexers built by `NewLexer` from equal byte buffers return equal
tokens (same Type, Literal, Line and Column) at each corresponding `NextToken`
call. -/
theorem equal_buffers_equal_tokens (input₁ input₂ : List UInt8) (h : input₁ = input₂)
    (n : Nat) :
    (NewLexer input₁).nthToken n = (NewLexer input₂).nthToken n
      ∧ (NewLexer input₁).tokens n = (NewLexer input₂).tokens n := by
  subst h
  exact ⟨rfl, rfl⟩

/-- C15 at a concrete pair of buffers: two lexers over the bytes of `"a="` agree
at the fourth call and on their first four tokens. -/
theorem equal_buffers_equal_tokens_witness :
    ([97, 61] : List UInt8) = [97, 61]
      ∧ (NewLexer [97, 61]).nthToken 3 = (NewLexer [97, 61]).nthToken 3
      ∧ (NewLexer [97, 61]).tokens 3 = (NewLexer [97, 61]).tokens 3 :=
  ⟨rfl, equal_buffers_equal_tokens [97, 61] [97, 61] rfl 3⟩

/-- C16: for every lexer state, a `NextToken` call leaves the `Input` buffer
unchanged, same length and same bytes; so does any number of calls. -/
theorem next_token_keeps_input (l : Lexer) (n : Nat) :
    ((l.NextToken).2).Input = l.Input
      ∧ (((l.NextToken).2).Input).length = l.Input.length
      ∧ (l.after n).Input = l.Input := by
  rw [after_eq]
  exact ⟨rfl, rfl, rfl⟩

/-! ## Operators at the end of the buffer -/

/-- C17, as stated, fails: on `"="` the first call does not return ASSIGN with
Literal "=" followed by EOF at the second call. -/
theorem trailing_assign_not_scanned :
    ¬ (((NewLexer (bytes "=")).nthToken 0).Type_ = ASSIGN
        ∧ ((NewLexer (bytes "=")).nthToken 0).Literal = "="
        ∧ ((NewLexer (bytes "=")).nthToken 1).Type_ = EOF) := by
  decide

/-- C17, amended: for every input whose last byte is `=` (61), `<` (60) or
`>` (62), every `NextToken` call returns the token it returns on the empty
buffer (no byte of the buffer is looked at, so none past its end): Type EOF with
the empty Literal, not ASSIGN, LT or GT; the next call returns EOF as well. -/
theorem trailing_operator_yields_eof (input : List UInt8)
    (_h : input.getLast? = some 61 ∨ input.getLast? = some 60 ∨ input.getLast? = some 62)
    (n : Nat) :
    (NewLexer input).nthToken n = (NewLexer []).nthToken n
      ∧ ((NewLexer input).nthToken n).Type_ = EOF
      ∧ ((NewLexer input).nthToken n).Literal = ""
      ∧ ((NewLexer input).nthToken n).Type_ ∉ [ASSIGN, LT, GT]
      ∧ ((NewLexer input).nthToken (n + 1)).Type_ = EOF := by
  rw [nthToken_eq, nthToken_eq, nthToken_eq]
  decide

/-- C17, amended, at the input `"x="`: its last byte is `=` and the first two
calls return EOF with the empty Literal. -/
theorem trailing_operator_yields_eof_witness :
    (([120, 61] : List UInt8).getLast? = some 61
        ∨ ([120, 61] : List UInt8).getLast? = some 60
        ∨ ([120, 61] : List UInt8).getLast? = some 62)
      ∧ (NewLexer [120, 61]).nthToken 0 = (NewLexer []).nthToken 0
      ∧ ((NewLexer [120, 61]).nthToken 0).Type_ = EOF
      ∧ ((NewLexer [120, 61]).nthToken 0).Literal = ""
      ∧ ((NewLexer [120, 61]).nthToken 0).Type_ ∉ [ASSIGN, LT, GT]
      ∧ ((NewLexer [120, 61]).nthToken (0 + 1)).Type_ = EOF :=
  ⟨Or.inl (by decide), trailing_operator_yields_eof [120, 61] (Or.inl (by decide)) 0⟩

/-! ## The token types -/

/-- C18: the keyword token types form one contiguous numeric range: for every
`TokenType` value `t`, `INT <= t` and `t <= WHILE` hold exactly when `t` is one
of INT, RETURN, IF, ELSE, WHILE. -/
theorem keyword_range_exact (t : TokenType) :
    (INT ≤ t ∧ t ≤ WHILE) ↔ (t = INT ∨ t = RETURN ∨ t = IF ∨ t = ELSE ∨ t = WHILE) := by
  have key : ∀ x : Int, (4 ≤ x ∧ x ≤ 8) ↔ (x = 4 ∨ x = 5 ∨ x = 6 ∨ x = 7 ∨ x = 8) := by
    intro x
    omega
  exact key t

/-- C19: for every input buffer, empty or not, and every call, `NextToken` on
`NewLexer(input)` returns the same constant token, Type EOF, Literal "", Line 0,
Column 0, which is also the token returned on the empty buffer; no IDENT,
keyword, INT_LIT, operator, delimiter or ILLEGAL token is returned. -/
theorem next_token_constant_eof (input : List UInt8) (n : Nat) :
    (NewLexer input).nthToken n = { Type_ := EOF, Literal := "", Line := 0, Column := 0 }
      ∧ (NewLexer input).nthToken n = ((NewLexer []).NextToken).1
      ∧ ((NewLexer input).nthToken n).Type_ ∈ tokenTypes
      ∧ ∀ t ∈ tokenTypes, t ≠ EOF → ((NewLexer input).nthToken n).Type_ ≠ t := by
  rw [nthToken_eq]
  refine ⟨rfl, rfl, by decide, ?_⟩
  intro t _ ht heq
  exact ht heq.symm

/-- C20, as stated, fails: the constants declared in `type.go` are not 23 in
number and are not the values 0 through 22. -/
theorem token_types_not_23 :
    ¬ (tokenTypes.length = 23 ∧ tokenTypes = (List.range 23).map Int.ofNat) := by
  decide

/-- C20, amended: the 26 `TokenType` constants declared in `type.go` are pairwise
distinct and take the consecutive values 0 through 25 in declaration order, with
ILLEGAL = 0 and EOF = 1, so the zero value of `Token` has Type ILLEGAL, not
EOF. -/
theorem token_types_are_0_to_25 :
    tokenTypes.length = 26
      ∧ tokenTypes = (List.range 26).map Int.ofNat
      ∧ tokenTypes.Nodup
      ∧ ILLEGAL = 0 ∧ EOF = 1
      ∧ zeroToken.Type_ = ILLEGAL ∧ zeroToken.Type_ ≠ EOF := by
  decide

end lexer
